import Mathlib

/-!
# Verification of `com_android_server_audio_AudioVolumeChangeHandler.cpp`

A shallow embedding of the JNI callback-bridge code in
`services/core/jni/com_android_server_audio_AudioVolumeChangeHandler.cpp`.

The C++ code manages `JNIAudioVolumeChangeHandler` objects (refcounted via
Android `sp<>` strong pointers), a per-owner `jlong` field `mJniCallback`
holding a raw pointer to the currently registered handler (the registration
slot), and the external `AudioSystem` callback registry.

Modelling choices:
* Handler objects ("bridges") are identified by natural numbers allocated in
  creation order (`nextId`).  Per-bridge attributes (`refCount`,
  `destroyed`, the two JNI global references `mClass` and `mObject`) are
  maps from the id.
* `sp<>` semantics are modelled faithfully: constructing an `sp` from a raw
  pointer increments the strong count, destroying an `sp` decrements it,
  and a count reaching zero runs the destructor.
* The mutex-guarded section of `setJniCallback` executes atomically here:
  the whole model is sequential, which is exactly what the lock provides.
* Every externally visible action (JNI global-reference management,
  refcount traffic, slot reads/writes, `AudioSystem` registration calls,
  the dispatch up-call, exception handling) is recorded in a ghost `trace`
  so that ordering claims can be stated.
* `AudioSystem::addAudioVolumeGroupCallback` stores a strong reference to
  the callback in its registry on success and retains nothing on failure;
  `removeAudioVolumeGroupCallback` erases the callback and drops that
  reference.  This is the external collaborator contract from the spec.
-/

namespace AudioVolumeChangeHandler

/-- `status_t` success value used by `addAudioVolumeGroupCallback`. -/
def NO_ERROR : Int := 0

/-- Modelled from the spec: the fixed event-kind tag passed as the `what`
argument of `postEventFromNative` (`AUDIOVOLUMEGROUP_EVENT_VOLUME_CHANGED`
is defined in the header `com_android_server_audio_AudioVolumeChangeHandler.h`,
which is not part of the sources; its concrete value is irrelevant to every
claim, only its identity as "the fixed tag" matters). -/
def AUDIOVOLUMEGROUP_EVENT_VOLUME_CHANGED : Int := 1000

/-- Ghost trace events: every externally visible action of the code. -/
inductive Ev where
  /-- `env->NewGlobalRef(clazz)` in the constructor (type descriptor). -/
  | newGlobalRefClass (b : Nat)
  /-- `env->NewGlobalRef(weak_thiz)` in the constructor (observer proxy). -/
  | newGlobalRefObject (b : Nat)
  /-- `env->DeleteGlobalRef(mObject)` in the destructor. -/
  | deleteGlobalRefObject (b : Nat)
  /-- `env->DeleteGlobalRef(mClass)` in the destructor. -/
  | deleteGlobalRefClass (b : Nat)
  /-- A strong-count increment on bridge `b`. -/
  | incStrong (b : Nat)
  /-- A strong-count decrement on bridge `b`. -/
  | decStrong (b : Nat)
  /-- The destructor of bridge `b` runs (strong count reached zero). -/
  | destroy (b : Nat)
  /-- `env->GetLongField(thiz, mJniCallback)` returned `v`. -/
  | slotRead (v : Option Nat)
  /-- `env->SetLongField(thiz, mJniCallback, v)`. -/
  | slotWrite (v : Option Nat)
  /-- `AudioSystem::addAudioVolumeGroupCallback(b)` succeeded. -/
  | addCallback (b : Nat)
  /-- `AudioSystem::removeAudioVolumeGroupCallback(b)`. -/
  | removeCallback (b : Nat)
  /-- `env->CallStaticVoidMethod(cls, postEventFromNative, obj, what,
  arg1, arg2, NULL)`: the dispatch up-call with its full payload.
  `extraNull` records that the trailing `Object` argument is `NULL`. -/
  | postEvent (cls : Option Nat) (obj : Option Nat) (what arg1 arg2 : Int)
      (extraNull : Bool)
  /-- `ALOGW` after `env->ExceptionCheck()` returned true. -/
  | exceptionLogged
  /-- `env->ExceptionClear()`. -/
  | exceptionCleared
  deriving DecidableEq, Repr

/-- The global state of the model: the owner's `mJniCallback` slot, the
`AudioSystem` registry, the per-bridge attributes and the ghost trace. -/
structure St where
  /-- Next fresh bridge id (number of bridges ever constructed). -/
  nextId : Nat
  /-- Strong reference count of each bridge. -/
  refCount : Nat → Nat
  /-- Whether each bridge's destructor has run. -/
  destroyed : Nat → Bool
  /-- The `mClass` global reference of each bridge (the class handle value),
  `none` before construction, after release, or if construction bailed out. -/
  mClass : Nat → Option Nat
  /-- The `mObject` global reference of each bridge (the weak observer
  proxy value). -/
  mObject : Nat → Option Nat
  /-- The owner's `mJniCallback` field: `none` models the `jlong` value 0. -/
  slot : Option Nat
  /-- Bridges currently registered with `AudioSystem`. -/
  registry : List Nat
  /-- Ghost trace of externally visible actions, oldest first. -/
  trace : List Ev

/-- The state before any call: empty slot, empty registry, no bridges. -/
def initialSt : St where
  nextId := 0
  refCount := fun _ => 0
  destroyed := fun _ => false
  mClass := fun _ => none
  mObject := fun _ => none
  slot := none
  registry := []
  trace := []

/-- `RefBase::incStrong` on bridge `b`. -/
def incStrong (b : Nat) (st : St) : St :=
  { st with
    refCount := Function.update st.refCount b (st.refCount b + 1)
    trace := st.trace ++ [.incStrong b] }

/-- The destructor `~JNIAudioVolumeChangeHandler`: fetch the JNI
environment; if it is unavailable return at once (the two global
references are NOT released); otherwise `DeleteGlobalRef(mObject)` then
`DeleteGlobalRef(mClass)`.  `envOk` is whether
`AndroidRuntime::getJNIEnv()` returns non-null on the running thread. -/
def destructor (envOk : Bool) (b : Nat) (st : St) : St :=
  let st := { st with
    destroyed := Function.update st.destroyed b true
    trace := st.trace ++ [.destroy b] }
  if envOk then
    { st with
      mObject := Function.update st.mObject b none
      mClass := Function.update st.mClass b none
      trace := st.trace ++ [.deleteGlobalRefObject b, .deleteGlobalRefClass b] }
  else st

/-- `RefBase::decStrong` on bridge `b`: decrement, and when the strong
count reaches zero run the destructor. -/
def decStrong (envOk : Bool) (b : Nat) (st : St) : St :=
  let c := st.refCount b
  let st := { st with
    refCount := Function.update st.refCount b (c - 1)
    trace := st.trace ++ [.decStrong b] }
  if c - 1 = 0 then destructor envOk b st else st

/-- The constructor `JNIAudioVolumeChangeHandler(env, thiz, weak_thiz)`:
allocate a fresh id; if `GetObjectClass` fails (`classOk = false`) it
returns early having acquired nothing; otherwise it takes a global
reference on the class (`clsVal`) and on the weak observer (`weakThiz`).
Returns the new bridge id (strong count still zero: the `sp<>` the caller
binds the result to does the first `incStrong`). -/
def newHandler (classOk : Bool) (clsVal weakThiz : Nat) (st : St) : Nat × St :=
  let b := st.nextId
  let st := { st with nextId := b + 1 }
  if classOk then
    (b, { st with
      mClass := Function.update st.mClass b (some clsVal)
      mObject := Function.update st.mObject b (some weakThiz)
      trace := st.trace ++ [.newGlobalRefClass b, .newGlobalRefObject b] })
  else (b, st)

/-- `setJniCallback(env, thiz, callback)`: under `gLock`,
read the slot into an `sp` (`sp` construction from the raw field value
retains the old bridge for the duration), `incStrong` the new callback if
non-null, `decStrong` the old one if non-null, write the new raw pointer
into the field, and return `old` (the returned `sp` carries the retaining
reference; the caller releases it when that `sp` dies). -/
def setJniCallback (envOk : Bool) (cb : Option Nat) (st : St) : Option Nat × St :=
  let old := st.slot
  let st := { st with trace := st.trace ++ [.slotRead old] }
  let st := match old with
    | some o => incStrong o st
    | none => st
  let st := match cb with
    | some c => incStrong c st
    | none => st
  let st := match old with
    | some o => decStrong envOk o st
    | none => st
  let st := { st with slot := cb, trace := st.trace ++ [.slotWrite cb] }
  (old, st)

/-- `eventHandlerSetup(env, thiz, weak_this)`: construct a handler, bind it
in a local `sp` (first `incStrong`), try
`AudioSystem::addAudioVolumeGroupCallback`; on `NO_ERROR` the registry
retains the callback and `setJniCallback` installs it (the returned old
`sp` is a discarded temporary, released at once); on failure nothing else
happens.  In both cases the local `sp` is released when the function
returns.  `addStatus` is the status the external event source returns. -/
def eventHandlerSetup (envOk classOk : Bool) (addStatus : Int)
    (clsVal weakThiz : Nat) (st : St) : St :=
  let p := newHandler classOk clsVal weakThiz st
  let b := p.1
  let st := incStrong b p.2
  let st :=
    if addStatus = NO_ERROR then
      let st := { st with
        registry := st.registry ++ [b]
        trace := st.trace ++ [.addCallback b] }
      let st := incStrong b st
      let q := setJniCallback envOk (some b) st
      match q.1 with
      | some o => decStrong envOk o q.2
      | none => q.2
    else st
  decStrong envOk b st

/-- `eventHandlerFinalize(env, thiz)`: swap the slot to empty; if a bridge
was installed, `AudioSystem::removeAudioVolumeGroupCallback` erases it from
the registry (dropping the registry's strong reference), then the local
`sp` holding the swapped-out bridge is released at scope end. -/
def eventHandlerFinalize (envOk : Bool) (st : St) : St :=
  let q := setJniCallback envOk none st
  match q.1 with
  | some c =>
    let st := { q.2 with
      registry := q.2.registry.erase c
      trace := q.2.trace ++ [.removeCallback c] }
    let st := decStrong envOk c st
    decStrong envOk c st
  | none => q.2

/-- `onAudioVolumeGroupChanged(group, flags)` on bridge `b`: fetch the JNI
environment (return at once if unavailable), perform the static dispatch
up-call with payload `(mObject, AUDIOVOLUMEGROUP_EVENT_VOLUME_CHANGED,
group, flags, NULL)`, then check for a pending exception; if one is raised
(`exceptionRaised`), log a warning and clear it, and return normally. -/
def onAudioVolumeGroupChanged (envOk exceptionRaised : Bool) (b : Nat)
    (group flags : Int) (st : St) : St :=
  if envOk then
    let st := { st with trace := st.trace ++
      [.postEvent (st.mClass b) (st.mObject b)
        AUDIOVOLUMEGROUP_EVENT_VOLUME_CHANGED group flags true] }
    if exceptionRaised then
      { st with trace := st.trace ++ [.exceptionLogged, .exceptionCleared] }
    else st
  else st

/-- The calls an owner object and the event source can make, driving the
state machine.  JNI entry points run on attached threads, so the
environment is available (`envOk = true`) on these paths. -/
inductive Op where
  /-- `native_setup`, with the environment's answers: does `GetObjectClass`
  succeed, which status does `addAudioVolumeGroupCallback` return, and the
  class / weak-observer handle values. -/
  | setup (classOk : Bool) (addStatus : Int) (clsVal weakThiz : Nat)
  /-- `native_finalize`. -/
  | teardown
  /-- The event source delivers `onAudioVolumeGroupChanged(group, flags)`
  to bridge `b`; `exceptionRaised` is whether the up-call leaves a pending
  exception. -/
  | onEvent (exceptionRaised : Bool) (b : Nat) (group flags : Int)

/-- One step of the state machine. -/
def step (st : St) : Op → St
  | .setup classOk addStatus clsVal weakThiz =>
      eventHandlerSetup true classOk addStatus clsVal weakThiz st
  | .teardown => eventHandlerFinalize true st
  | .onEvent ex b g f => onAudioVolumeGroupChanged true ex b g f st

/-- Run a sequence of calls from the initial state. -/
def run (ops : List Op) : St := List.foldl step initialSt ops

/-- The `AudioSystem::removeAudioVolumeGroupCallback` calls recorded in a
trace. -/
def removeEvents (t : List Ev) : List Ev :=
  t.filter fun e => match e with
    | .removeCallback _ => true
    | _ => false

/-- The dispatch up-calls (`CallStaticVoidMethod` of `postEventFromNative`)
recorded in a trace. -/
def dispatchEvents (t : List Ev) : List Ev :=
  t.filter fun e => match e with
    | .postEvent _ _ _ _ _ _ => true
    | _ => false

/-- The destructor runs recorded in a trace. -/
def destroyEvents (t : List Ev) : List Ev :=
  t.filter fun e => match e with
    | .destroy _ => true
    | _ => false

/-- The JNI method signature the code registers for `postEventFromNative`
(from `register_android_server_audio_AudioVolumeChangeHandler`): an object,
exactly three `int` slots, an object. -/
def postEventFromNativeSignature : String := "(Ljava/lang/Object;IIILjava/lang/Object;)V"

/-- Modelled from the spec: the JNI signature the spec's dispatch method
would have.  The spec declares `dispatch(observerProxy, eventKind: int,
arg1: int, arg2: int, arg3: int, extra: object|null)` — an object, four
`int` slots (`eventKind`, `arg1`, `arg2`, `arg3`), an object. -/
def specDispatchMethodSignature : String := "(Ljava/lang/Object;IIIILjava/lang/Object;)V"

/-- The states in which the slot's content is backed by a counted
reference: either the slot is empty, or it holds a bridge that is alive
with a positive strong count.  This is what the registration discipline
maintains; `setJniCallback` is only ever entered in such states. -/
def SlotCounted (st : St) : Prop :=
  st.slot = none ∨ ∃ o, st.slot = some o ∧ 1 ≤ st.refCount o ∧ st.destroyed o = false

/-- The global invariant of the registration discipline.  The strong count
of every bridge is exactly the number of places holding it (the slot and
the `AudioSystem` registry); the slot only ever holds a registered bridge;
registered bridges are pairwise distinct and were actually constructed;
a positive count means the destructor has not run; ids not yet allocated
are untouched. -/
structure Inv (st : St) : Prop where
  count : ∀ b, st.refCount b =
    (if st.slot = some b then 1 else 0) + (if b ∈ st.registry then 1 else 0)
  slot_reg : ∀ b, st.slot = some b → b ∈ st.registry
  nodup : st.registry.Nodup
  reg_lt : ∀ b, b ∈ st.registry → b < st.nextId
  alive : ∀ b, 1 ≤ st.refCount b → st.destroyed b = false
  fresh : ∀ b, st.nextId ≤ b → st.refCount b = 0 ∧ st.destroyed b = false

/-! ## Effect lemmas: closed forms for each operation -/

/-- `eventHandlerFinalize` on an empty slot changes nothing except reading
and rewriting the empty slot. -/
theorem finalize_none_spec (envOk : Bool) (st : St) (h : st.slot = none) :
    (eventHandlerFinalize envOk st).slot = none ∧
    (eventHandlerFinalize envOk st).registry = st.registry ∧
    (eventHandlerFinalize envOk st).refCount = st.refCount ∧
    (eventHandlerFinalize envOk st).destroyed = st.destroyed ∧
    (eventHandlerFinalize envOk st).mClass = st.mClass ∧
    (eventHandlerFinalize envOk st).mObject = st.mObject ∧
    (eventHandlerFinalize envOk st).nextId = st.nextId ∧
    (eventHandlerFinalize envOk st).trace = st.trace ++ [.slotRead none, .slotWrite none] := by
  simp [eventHandlerFinalize, setJniCallback, h]

/-- `eventHandlerFinalize` on a slot holding bridge `o` whose strong count
is 2 (one reference from the slot, one from the registry): the slot is
cleared, the bridge is erased from the registry and destroyed, its global
references are released, and the trace records the full ordering. -/
theorem finalize_some_spec (st : St) (o : Nat) (h : st.slot = some o)
    (hrc : st.refCount o = 2) :
    (eventHandlerFinalize true st).slot = none ∧
    (eventHandlerFinalize true st).registry = st.registry.erase o ∧
    (eventHandlerFinalize true st).nextId = st.nextId ∧
    (∀ x, (eventHandlerFinalize true st).refCount x = if x = o then 0 else st.refCount x) ∧
    (∀ x, (eventHandlerFinalize true st).destroyed x =
      if x = o then true else st.destroyed x) ∧
    (∀ x, (eventHandlerFinalize true st).mClass x = if x = o then none else st.mClass x) ∧
    (∀ x, (eventHandlerFinalize true st).mObject x = if x = o then none else st.mObject x) ∧
    (eventHandlerFinalize true st).trace = st.trace ++
      [.slotRead (some o), .incStrong o, .decStrong o, .slotWrite none,
       .removeCallback o, .decStrong o, .decStrong o, .destroy o,
       .deleteGlobalRefObject o, .deleteGlobalRefClass o] := by
  simp only [eventHandlerFinalize, setJniCallback, incStrong, decStrong, destructor, h]
  simp [Function.update_apply, hrc]

/-- `eventHandlerSetup` when the event source rejects the registration
(`addStatus ≠ NO_ERROR`): the slot and registry are untouched, the fresh
bridge ends destroyed with count 0 and both global references released,
and (when `GetObjectClass` succeeded) the trace records the balanced
acquire/release pair. -/
theorem setup_fail_spec (classOk : Bool) (status : Int) (cls w : Nat) (st : St)
    (hst : status ≠ NO_ERROR) (hfresh : st.refCount st.nextId = 0) :
    (eventHandlerSetup true classOk status cls w st).slot = st.slot ∧
    (eventHandlerSetup true classOk status cls w st).registry = st.registry ∧
    (eventHandlerSetup true classOk status cls w st).nextId = st.nextId + 1 ∧
    (∀ x, (eventHandlerSetup true classOk status cls w st).refCount x =
      if x = st.nextId then 0 else st.refCount x) ∧
    (∀ x, (eventHandlerSetup true classOk status cls w st).destroyed x =
      if x = st.nextId then true else st.destroyed x) ∧
    (∀ x, (eventHandlerSetup true classOk status cls w st).mClass x =
      if x = st.nextId then none else st.mClass x) ∧
    (∀ x, (eventHandlerSetup true classOk status cls w st).mObject x =
      if x = st.nextId then none else st.mObject x) ∧
    (eventHandlerSetup true classOk status cls w st).trace = st.trace ++
      (if classOk then [Ev.newGlobalRefClass st.nextId, Ev.newGlobalRefObject st.nextId]
        else []) ++
      [.incStrong st.nextId, .decStrong st.nextId, .destroy st.nextId,
       .deleteGlobalRefObject st.nextId, .deleteGlobalRefClass st.nextId] := by
  cases classOk <;>
  · simp only [eventHandlerSetup, newHandler, setJniCallback, incStrong, decStrong,
      destructor, hst, if_neg hst]
    simp [Function.update_apply, hfresh]

/-- `eventHandlerSetup` when registration succeeds and the slot was empty:
the fresh bridge is appended to the registry and installed in the slot with
strong count 2. -/
theorem setup_success_none_spec (classOk : Bool) (cls w : Nat) (st : St)
    (hslot : st.slot = none) (hfresh : st.refCount st.nextId = 0) :
    (eventHandlerSetup true classOk NO_ERROR cls w st).slot = some st.nextId ∧
    (eventHandlerSetup true classOk NO_ERROR cls w st).registry = st.registry ++ [st.nextId] ∧
    (eventHandlerSetup true classOk NO_ERROR cls w st).nextId = st.nextId + 1 ∧
    (∀ x, (eventHandlerSetup true classOk NO_ERROR cls w st).refCount x =
      if x = st.nextId then 2 else st.refCount x) ∧
    (eventHandlerSetup true classOk NO_ERROR cls w st).destroyed = st.destroyed := by
  cases classOk <;>
  · simp only [eventHandlerSetup, newHandler, setJniCallback, incStrong, decStrong,
      destructor, hslot]
    simp [Function.update_apply, hfresh]

/-- `eventHandlerSetup` when registration succeeds and the slot held bridge
`o` with strong count 2: the fresh bridge supersedes `o` in the slot; `o`
keeps its registry reference (count drops to 1) and is neither destroyed
nor removed from the registry. -/
theorem setup_success_some_spec (classOk : Bool) (cls w : Nat) (st : St) (o : Nat)
    (hslot : st.slot = some o) (hrc : st.refCount o = 2) (hne : o ≠ st.nextId)
    (hfresh : st.refCount st.nextId = 0) :
    (eventHandlerSetup true classOk NO_ERROR cls w st).slot = some st.nextId ∧
    (eventHandlerSetup true classOk NO_ERROR cls w st).registry = st.registry ++ [st.nextId] ∧
    (eventHandlerSetup true classOk NO_ERROR cls w st).nextId = st.nextId + 1 ∧
    (∀ x, (eventHandlerSetup true classOk NO_ERROR cls w st).refCount x =
      if x = st.nextId then 2 else if x = o then 1 else st.refCount x) ∧
    (eventHandlerSetup true classOk NO_ERROR cls w st).destroyed = st.destroyed := by
  have hne2 : st.nextId ≠ o := fun hh => hne hh.symm
  cases classOk <;>
  · simp only [eventHandlerSetup, newHandler, setJniCallback, incStrong, decStrong,
      destructor, hslot]
    simp [Function.update_apply, hfresh, hrc, hne, hne2]
    intro x
    by_cases hx : x = st.nextId <;> by_cases hxo : x = o <;> simp [hx, hxo]

/-! ## The invariant holds in every reachable state -/

/-- `Inv` only depends on the non-trace components. -/
theorem Inv.of_eq (st st' : St) (h : Inv st) (hslot : st'.slot = st.slot)
    (hreg : st'.registry = st.registry) (hrc : st'.refCount = st.refCount)
    (hdes : st'.destroyed = st.destroyed) (hnext : st'.nextId = st.nextId) : Inv st' := by
  constructor
  · intro b; rw [hrc, hslot, hreg]; exact h.count b
  · intro b hb; rw [hreg]; exact h.slot_reg b (hslot ▸ hb)
  · rw [hreg]; exact h.nodup
  · intro b hb; rw [hnext]; exact h.reg_lt b (hreg ▸ hb)
  · intro b hb; rw [hdes]; exact h.alive b (hrc ▸ hb)
  · intro b hb; rw [hrc, hdes]; exact h.fresh b (hnext ▸ hb)

/-- `onAudioVolumeGroupChanged` only appends to the trace. -/
theorem onEvent_preserves (envOk ex : Bool) (b : Nat) (g f : Int) (st : St) :
    (onAudioVolumeGroupChanged envOk ex b g f st).slot = st.slot ∧
    (onAudioVolumeGroupChanged envOk ex b g f st).registry = st.registry ∧
    (onAudioVolumeGroupChanged envOk ex b g f st).refCount = st.refCount ∧
    (onAudioVolumeGroupChanged envOk ex b g f st).destroyed = st.destroyed ∧
    (onAudioVolumeGroupChanged envOk ex b g f st).nextId = st.nextId ∧
    (onAudioVolumeGroupChanged envOk ex b g f st).mClass = st.mClass ∧
    (onAudioVolumeGroupChanged envOk ex b g f st).mObject = st.mObject := by
  cases envOk <;> cases ex <;> simp [onAudioVolumeGroupChanged]

/-- Each call of the state machine preserves the invariant. -/
theorem inv_step (st : St) (op : Op) (h : Inv st) : Inv (step st op) := by
  have hfresh : st.refCount st.nextId = 0 := (h.fresh st.nextId (le_refl _)).1
  have hnmem : st.nextId ∉ st.registry := fun hm => absurd (h.reg_lt _ hm) (lt_irrefl _)
  cases op with
  | setup classOk status cls w =>
    simp only [step]
    by_cases hstatus : status = NO_ERROR
    · subst hstatus
      cases hslot : st.slot with
      | none =>
        obtain ⟨h1, h2, h3, h4, h5⟩ := setup_success_none_spec classOk cls w st hslot hfresh
        constructor
        · intro b
          have hc := h.count b
          rw [h4 b, h1, h2]
          by_cases hb : b = st.nextId
          · subst hb; simp [hnmem, hslot]
          · simp only [hslot] at hc
            simp [hb, List.mem_append, Ne.symm hb] at hc ⊢
            omega
        · intro b hb
          rw [h1] at hb
          rw [h2]
          cases hb
          simp [List.mem_append]
        · rw [h2]
          rw [List.nodup_append]
          exact ⟨h.nodup, List.nodup_singleton _,
            fun a ha hb => by
              rw [List.mem_singleton] at hb
              exact hnmem (hb ▸ ha)⟩
        · intro b hb
          rw [h2, List.mem_append] at hb
          rw [h3]
          rcases hb with hb | hb
          · exact Nat.lt_succ_of_lt (h.reg_lt b hb)
          · rw [List.mem_singleton] at hb
            exact hb ▸ Nat.lt_succ_self _
        · intro b hb
          rw [h4 b] at hb
          rw [h5]
          by_cases hbn : b = st.nextId
          · exact hbn ▸ (h.fresh st.nextId (le_refl _)).2
          · rw [if_neg hbn] at hb
            exact h.alive b hb
        · intro b hb
          rw [h3] at hb
          have hbn : b ≠ st.nextId := fun he => by omega
          rw [h4 b, if_neg hbn, h5]
          exact h.fresh b (by omega)
      | some o =>
        have ho_mem := h.slot_reg o hslot
        have ho_lt := h.reg_lt o ho_mem
        have hne : o ≠ st.nextId := Nat.ne_of_lt ho_lt
        have hrc : st.refCount o = 2 := by
          have hc := h.count o
          rw [hslot] at hc
          simp [ho_mem] at hc
          exact hc
        obtain ⟨h1, h2, h3, h4, h5⟩ :=
          setup_success_some_spec classOk cls w st o hslot hrc hne hfresh
        constructor
        · intro b
          have hc := h.count b
          rw [h4 b, h1, h2]
          by_cases hb : b = st.nextId
          · subst hb; simp [hnmem, hne, Ne.symm hne]
          · by_cases hbo : b = o
            · subst hbo
              simp [hne, Ne.symm hne, List.mem_append, ho_mem]
            · simp only [hslot] at hc
              have : ¬(o = b) := fun he => hbo he.symm
              simp [hb, hbo, this, List.mem_append, Ne.symm hb] at hc ⊢
              omega
        · intro b hb
          rw [h1] at hb
          rw [h2]
          cases hb
          simp [List.mem_append]
        · rw [h2]
          rw [List.nodup_append]
          exact ⟨h.nodup, List.nodup_singleton _,
            fun a ha hb => by
              rw [List.mem_singleton] at hb
              exact hnmem (hb ▸ ha)⟩
        · intro b hb
          rw [h2, List.mem_append] at hb
          rw [h3]
          rcases hb with hb | hb
          · exact Nat.lt_succ_of_lt (h.reg_lt b hb)
          · rw [List.mem_singleton] at hb
            exact hb ▸ Nat.lt_succ_self _
        · intro b hb
          rw [h4 b] at hb
          rw [h5]
          by_cases hbn : b = st.nextId
          · exact hbn ▸ (h.fresh st.nextId (le_refl _)).2
          · rw [if_neg hbn] at hb
            by_cases hbo : b = o
            · subst hbo
              exact h.alive b (by rw [hrc]; omega)
            · rw [if_neg hbo] at hb
              exact h.alive b hb
        · intro b hb
          rw [h3] at hb
          have hbn : b ≠ st.nextId := fun he => by omega
          have hbo : b ≠ o := fun he => by omega
          rw [h4 b, if_neg hbn, if_neg hbo, h5]
          exact h.fresh b (by omega)
    · obtain ⟨h1, h2, h3, h4, h5, _, _, _⟩ :=
        setup_fail_spec classOk status cls w st hstatus hfresh
      have hsfr : st.slot ≠ some st.nextId := fun hs =>
        absurd (h.reg_lt _ (h.slot_reg _ hs)) (lt_irrefl _)
      constructor
      · intro b
        have hc := h.count b
        rw [h4 b, h1, h2]
        by_cases hb : b = st.nextId
        · subst hb; simp [hnmem, hsfr]
        · rw [if_neg hb]; exact hc
      · intro b hb
        rw [h1] at hb
        rw [h2]
        exact h.slot_reg b hb
      · rw [h2]; exact h.nodup
      · intro b hb
        rw [h2] at hb
        rw [h3]
        exact Nat.lt_succ_of_lt (h.reg_lt b hb)
      · intro b hb
        rw [h4 b] at hb
        by_cases hbn : b = st.nextId
        · rw [if_pos hbn] at hb; omega
        · rw [if_neg hbn] at hb
          rw [h5 b, if_neg hbn]
          exact h.alive b hb
      · intro b hb
        rw [h3] at hb
        have hbn : b ≠ st.nextId := fun he => by omega
        rw [h4 b, if_neg hbn, h5 b, if_neg hbn]
        exact h.fresh b (by omega)
  | teardown =>
    simp only [step]
    cases hslot : st.slot with
    | none =>
      obtain ⟨h1, h2, h3, h4, h5, h6, h7, h8⟩ := finalize_none_spec true st hslot
      exact Inv.of_eq st _ h (h1.trans hslot.symm) h2 h3 h4 h7
    | some o =>
      have ho_mem := h.slot_reg o hslot
      have hrc : st.refCount o = 2 := by
        have hc := h.count o
        rw [hslot] at hc
        simp [ho_mem] at hc
        exact hc
      obtain ⟨h1, h2, h3, h4, h5, _, _, _⟩ := finalize_some_spec st o hslot hrc
      constructor
      · intro b
        rw [h4 b, h1, h2]
        by_cases hb : b = o
        · subst hb
          simp [h.nodup.mem_erase_iff]
        · have hc := h.count b
          rw [hslot] at hc
          have : ¬(o = b) := fun he => hb he.symm
          simp [hb, this, h.nodup.mem_erase_iff] at hc ⊢
          omega
      · intro b hb
        rw [h1] at hb
        cases hb
      · rw [h2]; exact h.nodup.erase o
      · intro b hb
        rw [h2] at hb
        rw [h3]
        exact h.reg_lt b (List.mem_of_mem_erase hb)
      · intro b hb
        rw [h4 b] at hb
        by_cases hbo : b = o
        · rw [if_pos hbo] at hb; omega
        · rw [if_neg hbo] at hb
          rw [h5 b, if_neg hbo]
          exact h.alive b hb
      · intro b hb
        rw [h3] at hb
        have hbo : b ≠ o := fun he => by
          have := h.reg_lt o ho_mem
          omega
        rw [h4 b, if_neg hbo, h5 b, if_neg hbo]
        exact h.fresh b hb
  | onEvent ex b g f =>
    simp only [step]
    obtain ⟨h1, h2, h3, h4, h5, _, _⟩ := onEvent_preserves true ex b g f st
    exact Inv.of_eq st _ h h1 h2 h3 h4 h5

/-- The invariant holds initially. -/
theorem inv_initial : Inv initialSt := by
  constructor <;> simp [initialSt]

/-- The invariant holds in every reachable state. -/
theorem inv_run (ops : List Op) : Inv (run ops) := by
  rw [run]
  have : ∀ st, Inv st → Inv (List.foldl step st ops) := by
    induction ops with
    | nil => intro st h; exact h
    | cons op rest ih =>
      intro st h
      exact ih (step st op) (inv_step st op h)
  exact this initialSt inv_initial

/-- The teardown entry point always leaves the `mJniCallback` slot empty
(`setJniCallback(env, thiz, 0)` writes 0 and nothing later rewrites it). -/
theorem finalize_slot_empty (envOk : Bool) (st : St) :
    (eventHandlerFinalize envOk st).slot = none := by
  cases hslot : st.slot with
  | none =>
    simp [eventHandlerFinalize, setJniCallback, hslot]
  | some o =>
    simp [eventHandlerFinalize, setJniCallback, incStrong, decStrong, destructor, hslot,
      apply_ite St.slot]

/-! ## Claims -/

/-- C1: for every sequence of setup/teardown (and event-delivery) calls on
one owner, whenever the `mJniCallback` slot holds a bridge, that bridge is
live (not destroyed, positive strong count), and the slot holds at most
that one bridge — the slot is the single source of truth for which bridge
is registered for the owner. -/
theorem slot_at_most_one_live_bridge (ops : List Op) (b : Nat)
    (h : (run ops).slot = some b) :
    (run ops).destroyed b = false ∧ 1 ≤ (run ops).refCount b ∧
    (∀ b2, (run ops).slot = some b2 → b2 = b) := by
  have hinv := inv_run ops
  have hmem := hinv.slot_reg b h
  have hc := hinv.count b
  rw [h] at hc
  simp [hmem] at hc
  refine ⟨hinv.alive b (by omega), by omega, ?_⟩
  intro b2 h2
  rw [h] at h2
  exact (Option.some_injective _ h2).symm

/-- Witness for C1: after one successful setup, the slot holds bridge 0
and the theorem applies. -/
theorem slot_at_most_one_live_bridge_witness :
    (run [Op.setup true 0 5 7]).slot = some 0 ∧
    ((run [Op.setup true 0 5 7]).destroyed 0 = false ∧
      1 ≤ (run [Op.setup true 0 5 7]).refCount 0 ∧
      (∀ b2, (run [Op.setup true 0 5 7]).slot = some b2 → b2 = 0)) :=
  ⟨rfl, slot_at_most_one_live_bridge [Op.setup true 0 5 7] 0 rfl⟩

/-- C2: the slot-swap `setJniCallback`, for every current slot value and
every supplied new value (possibly empty), under the single lock reads the
old value from the slot (retaining it, since the read constructs a counted
`sp` reference that is handed back to the caller), increments the new
bridge's count if one is supplied, decrements the old bridge's count if
one was installed, writes the new value into the slot, and returns the old
value — in exactly that order, as the trace shows.  Consequently the slot
is written exactly once (never transiently holding two counted references
to the same bridge: the new bridge's count is raised before the single
write and the old bridge's single slot reference is transferred, not
duplicated), and the previous bridge is never released while still visible
in the slot: the trace contains no `destroy` event and the old bridge ends
alive with a positive count. -/
theorem setJniCallback_swap_protocol (envOk : Bool) (cb : Option Nat) (st : St)
    (h : SlotCounted st) :
    (setJniCallback envOk cb st).1 = st.slot ∧
    (setJniCallback envOk cb st).2.slot = cb ∧
    (setJniCallback envOk cb st).2.registry = st.registry ∧
    (setJniCallback envOk cb st).2.trace = st.trace ++ [Ev.slotRead st.slot] ++
      (match st.slot with | some o => [Ev.incStrong o] | none => []) ++
      (match cb with | some c => [Ev.incStrong c] | none => []) ++
      (match st.slot with | some o => [Ev.decStrong o] | none => []) ++
      [Ev.slotWrite cb] ∧
    (∀ o, st.slot = some o → (setJniCallback envOk cb st).2.destroyed o = false ∧
      1 ≤ (setJniCallback envOk cb st).2.refCount o) ∧
    (∀ c, cb = some c → st.slot ≠ some c →
      (setJniCallback envOk cb st).2.refCount c = st.refCount c + 1) := by
  rcases h with hnone | ⟨o, hslot, ho1, ho2⟩
  · cases cb with
    | none => simp [setJniCallback, incStrong, hnone]
    | some c => simp [setJniCallback, incStrong, hnone, Function.update_apply]
  · have hcond0 : ¬(st.refCount o = 0) := by omega
    cases cb with
    | none =>
      have hcond : ¬(st.refCount o + 1 - 1 = 0) := by omega
      simp [setJniCallback, incStrong, decStrong, hslot, Function.update_apply, hcond, hcond0,
        ho2]
      omega
    | some c =>
      by_cases hco : c = o
      · subst hco
        have hcond : ¬(st.refCount c + 1 + 1 - 1 = 0) := by omega
        simp [setJniCallback, incStrong, decStrong, hslot, Function.update_apply, hcond, hcond0,
          ho2]
      · have hco2 : ¬(o = c) := fun he => hco he.symm
        have hcond : ¬(st.refCount o + 1 - 1 = 0) := by omega
        simp [setJniCallback, incStrong, decStrong, hslot, Function.update_apply, hco, hco2,
          hcond, hcond0, ho2]
        omega

/-- Witness for C2: an empty slot receiving bridge 0. -/
theorem setJniCallback_swap_protocol_witness :
    SlotCounted initialSt ∧
    ((setJniCallback true (some 0) initialSt).1 = initialSt.slot ∧
     (setJniCallback true (some 0) initialSt).2.slot = some 0 ∧
     (setJniCallback true (some 0) initialSt).2.registry = initialSt.registry ∧
     (setJniCallback true (some 0) initialSt).2.trace = initialSt.trace ++
       [Ev.slotRead initialSt.slot] ++
       (match initialSt.slot with | some o => [Ev.incStrong o] | none => []) ++
       (match (some 0 : Option Nat) with | some c => [Ev.incStrong c] | none => []) ++
       (match initialSt.slot with | some o => [Ev.decStrong o] | none => []) ++
       [Ev.slotWrite (some 0)] ∧
     (∀ o, initialSt.slot = some o →
       (setJniCallback true (some 0) initialSt).2.destroyed o = false ∧
       1 ≤ (setJniCallback true (some 0) initialSt).2.refCount o) ∧
     (∀ c, (some 0 : Option Nat) = some c → initialSt.slot ≠ some c →
       (setJniCallback true (some 0) initialSt).2.refCount c = initialSt.refCount c + 1)) :=
  ⟨Or.inl rfl, setJniCallback_swap_protocol true (some 0) initialSt (Or.inl rfl)⟩

/-- C3: a setup call in which the event source rejects the registration
(`addAudioVolumeGroupCallback` returns a status other than `NO_ERROR`)
leaves the owner's slot and the registry unchanged, and the newly
constructed bridge is destroyed with both of its acquired global
references (type descriptor `mClass` and observer proxy `mObject`)
released: the trace shows the two `NewGlobalRef` acquisitions matched by
the two `DeleteGlobalRef` releases, so the failed attempt leaks no
handles; the call returns normally (it is a total function), so the
failure is not escalated. -/
theorem setup_failed_registration_clean (st : St) (status : Int) (cls w : Nat)
    (hstatus : status ≠ NO_ERROR) (hfresh : st.refCount st.nextId = 0) :
    (eventHandlerSetup true true status cls w st).slot = st.slot ∧
    (eventHandlerSetup true true status cls w st).registry = st.registry ∧
    (eventHandlerSetup true true status cls w st).destroyed st.nextId = true ∧
    (eventHandlerSetup true true status cls w st).refCount st.nextId = 0 ∧
    (eventHandlerSetup true true status cls w st).mClass st.nextId = none ∧
    (eventHandlerSetup true true status cls w st).mObject st.nextId = none ∧
    (eventHandlerSetup true true status cls w st).trace = st.trace ++
      [Ev.newGlobalRefClass st.nextId, Ev.newGlobalRefObject st.nextId,
       Ev.incStrong st.nextId, Ev.decStrong st.nextId, Ev.destroy st.nextId,
       Ev.deleteGlobalRefObject st.nextId, Ev.deleteGlobalRefClass st.nextId] := by
  obtain ⟨h1, h2, h3, h4, h5, h6, h7, h8⟩ := setup_fail_spec true status cls w st hstatus hfresh
  refine ⟨h1, h2, ?_, ?_, ?_, ?_, ?_⟩
  · rw [h5 st.nextId]; simp
  · rw [h4 st.nextId]; simp
  · rw [h6 st.nextId]; simp
  · rw [h7 st.nextId]; simp
  · rw [h8]; simp

/-- Witness for C3: a failed registration (status 1) from the initial
state. -/
theorem setup_failed_registration_clean_witness :
    ((1 : Int) ≠ NO_ERROR ∧ initialSt.refCount initialSt.nextId = 0) ∧
    ((eventHandlerSetup true true 1 5 7 initialSt).slot = initialSt.slot ∧
     (eventHandlerSetup true true 1 5 7 initialSt).registry = initialSt.registry ∧
     (eventHandlerSetup true true 1 5 7 initialSt).destroyed initialSt.nextId = true ∧
     (eventHandlerSetup true true 1 5 7 initialSt).refCount initialSt.nextId = 0 ∧
     (eventHandlerSetup true true 1 5 7 initialSt).mClass initialSt.nextId = none ∧
     (eventHandlerSetup true true 1 5 7 initialSt).mObject initialSt.nextId = none ∧
     (eventHandlerSetup true true 1 5 7 initialSt).trace = initialSt.trace ++
       [Ev.newGlobalRefClass initialSt.nextId, Ev.newGlobalRefObject initialSt.nextId,
        Ev.incStrong initialSt.nextId, Ev.decStrong initialSt.nextId,
        Ev.destroy initialSt.nextId, Ev.deleteGlobalRefObject initialSt.nextId,
        Ev.deleteGlobalRefClass initialSt.nextId]) :=
  ⟨⟨by decide, rfl⟩, setup_failed_registration_clean initialSt 1 5 7 (by decide) rfl⟩

/-- C4: when the observer-side dispatch raises a host-side error during an
`onAudioVolumeGroupChanged` delivery, the error is checked
(`ExceptionCheck`), logged and cleared (`ExceptionClear`) and the call
returns normally; the owner's slot, the registry and every bridge are
untouched (so an installed bridge remains installed and registered), and a
subsequent delivery still performs its dispatch up-call. -/
theorem onEvent_exception_contained (st : St) (b : Nat) (g f g2 f2 : Int) :
    (onAudioVolumeGroupChanged true true b g f st).slot = st.slot ∧
    (onAudioVolumeGroupChanged true true b g f st).registry = st.registry ∧
    (onAudioVolumeGroupChanged true true b g f st).refCount = st.refCount ∧
    (onAudioVolumeGroupChanged true true b g f st).destroyed = st.destroyed ∧
    (onAudioVolumeGroupChanged true true b g f st).trace = st.trace ++
      [Ev.postEvent (st.mClass b) (st.mObject b) AUDIOVOLUMEGROUP_EVENT_VOLUME_CHANGED g f true,
       Ev.exceptionLogged, Ev.exceptionCleared] ∧
    (onAudioVolumeGroupChanged true false b g2 f2
        (onAudioVolumeGroupChanged true true b g f st)).trace =
      (onAudioVolumeGroupChanged true true b g f st).trace ++
        [Ev.postEvent (st.mClass b) (st.mObject b) AUDIOVOLUMEGROUP_EVENT_VOLUME_CHANGED
          g2 f2 true] := by
  simp [onAudioVolumeGroupChanged]

/-- C5 counterexample: the claim says the dispatch payload is
`(observerProxy, eventKind = VOLUME_CHANGED, arg1 = groupId, arg2 = flags,
arg3 = 0, extra = null)` — four int arguments.  The method the code
actually registers and calls, `postEventFromNative`, has JNI signature
`(Ljava/lang/Object;IIILjava/lang/Object;)V`: exactly three int slots
(`what`, `arg1`, `arg2`), so no fourth int `arg3 = 0` exists in the call;
the signature the spec's six-field payload would require differs from the
registered one. -/
theorem dispatch_payload_arity_counterexample :
    postEventFromNativeSignature ≠ specDispatchMethodSignature ∧
    postEventFromNativeSignature.toList.count 'I' = 3 ∧
    specDispatchMethodSignature.toList.count 'I' = 4 := by decide

/-- C5 (amended): every event delivered to a registered bridge performs
the dispatch up-call exactly once per delivery, with payload
`(observerProxy, AUDIOVOLUMEGROUP_EVENT_VOLUME_CHANGED, groupId, flags,
null)` (and the bridge's class handle as the receiver class); in the
concrete scenario — setup with observer proxy `P`, then
`onEvent(groupId = 3, flags = 1)` — the whole trace contains exactly one
dispatch call, `postEventFromNative(P, VOLUME_CHANGED, 3, 1, null)`. -/
theorem onEvent_dispatch_payload (cls P : Nat) (g f : Int) :
    (onAudioVolumeGroupChanged true false 0 g f (run [Op.setup true 0 cls P])).trace =
      (run [Op.setup true 0 cls P]).trace ++
        [Ev.postEvent (some cls) (some P) AUDIOVOLUMEGROUP_EVENT_VOLUME_CHANGED g f true] ∧
    dispatchEvents
        (onAudioVolumeGroupChanged true false 0 3 1 (run [Op.setup true 0 cls P])).trace =
      [Ev.postEvent (some cls) (some P) AUDIOVOLUMEGROUP_EVENT_VOLUME_CHANGED 3 1 true] :=
  ⟨rfl, rfl⟩

/-- C6: a second successful setup on the same owner installs the second
bridge (id 1) in the slot, releases the first bridge's slot reference
(its count drops to 1, the registry's), never calls `removeCallback` for
it, and a subsequent teardown calls `removeCallback` exactly once — for
the second bridge. -/
theorem second_setup_supersedes (cls1 P1 cls2 P2 : Nat) :
    (run [Op.setup true 0 cls1 P1, Op.setup true 0 cls2 P2]).slot = some 1 ∧
    (run [Op.setup true 0 cls1 P1, Op.setup true 0 cls2 P2]).refCount 0 = 1 ∧
    (run [Op.setup true 0 cls1 P1, Op.setup true 0 cls2 P2]).destroyed 0 = false ∧
    0 ∈ (run [Op.setup true 0 cls1 P1, Op.setup true 0 cls2 P2]).registry ∧
    removeEvents (run [Op.setup true 0 cls1 P1, Op.setup true 0 cls2 P2]).trace = [] ∧
    removeEvents (run [Op.setup true 0 cls1 P1, Op.setup true 0 cls2 P2,
      Op.teardown]).trace = [Ev.removeCallback 1] ∧
    (run [Op.setup true 0 cls1 P1, Op.setup true 0 cls2 P2, Op.teardown]).slot = none := by
  simp [run, step, eventHandlerSetup, newHandler, setJniCallback, incStrong, decStrong,
    destructor, eventHandlerFinalize, initialSt, removeEvents, NO_ERROR,
    Function.update_apply]

/-- C7: teardown is idempotent — on an owner whose slot is empty
(including when no registration ever succeeded) it changes no state and
calls `removeCallback` (and destroys) nothing; and the second of two
consecutive teardown calls is always such a no-op, since the first one
leaves the slot empty. -/
theorem teardown_idempotent (envOk : Bool) (st st2 : St) (h : st.slot = none) :
    ((eventHandlerFinalize envOk st).slot = st.slot ∧
     (eventHandlerFinalize envOk st).registry = st.registry ∧
     (eventHandlerFinalize envOk st).refCount = st.refCount ∧
     (eventHandlerFinalize envOk st).destroyed = st.destroyed ∧
     (eventHandlerFinalize envOk st).mClass = st.mClass ∧
     (eventHandlerFinalize envOk st).mObject = st.mObject ∧
     (eventHandlerFinalize envOk st).nextId = st.nextId ∧
     removeEvents (eventHandlerFinalize envOk st).trace = removeEvents st.trace ∧
     destroyEvents (eventHandlerFinalize envOk st).trace = destroyEvents st.trace) ∧
    ((eventHandlerFinalize envOk (eventHandlerFinalize envOk st2)).registry =
       (eventHandlerFinalize envOk st2).registry ∧
     (eventHandlerFinalize envOk (eventHandlerFinalize envOk st2)).refCount =
       (eventHandlerFinalize envOk st2).refCount ∧
     (eventHandlerFinalize envOk (eventHandlerFinalize envOk st2)).destroyed =
       (eventHandlerFinalize envOk st2).destroyed ∧
     removeEvents (eventHandlerFinalize envOk (eventHandlerFinalize envOk st2)).trace =
       removeEvents (eventHandlerFinalize envOk st2).trace) := by
  obtain ⟨g1, g2, g3, g4, g5, g6, g7, g8⟩ := finalize_none_spec envOk st h
  obtain ⟨k1, k2, k3, k4, k5, k6, k7, k8⟩ :=
    finalize_none_spec envOk (eventHandlerFinalize envOk st2) (finalize_slot_empty envOk st2)
  refine ⟨⟨g1.trans h.symm, g2, g3, g4, g5, g6, g7, ?_, ?_⟩, k2, k3, k4, ?_⟩
  · rw [g8]; simp [removeEvents]
  · rw [g8]; simp [destroyEvents]
  · rw [k8]; simp [removeEvents]

/-- Witness for C7: teardown from the initial (never-registered) state. -/
theorem teardown_idempotent_witness :
    initialSt.slot = none ∧
    (((eventHandlerFinalize true initialSt).slot = initialSt.slot ∧
      (eventHandlerFinalize true initialSt).registry = initialSt.registry ∧
      (eventHandlerFinalize true initialSt).refCount = initialSt.refCount ∧
      (eventHandlerFinalize true initialSt).destroyed = initialSt.destroyed ∧
      (eventHandlerFinalize true initialSt).mClass = initialSt.mClass ∧
      (eventHandlerFinalize true initialSt).mObject = initialSt.mObject ∧
      (eventHandlerFinalize true initialSt).nextId = initialSt.nextId ∧
      removeEvents (eventHandlerFinalize true initialSt).trace = removeEvents initialSt.trace ∧
      destroyEvents (eventHandlerFinalize true initialSt).trace =
        destroyEvents initialSt.trace) ∧
     ((eventHandlerFinalize true (eventHandlerFinalize true initialSt)).registry =
        (eventHandlerFinalize true initialSt).registry ∧
      (eventHandlerFinalize true (eventHandlerFinalize true initialSt)).refCount =
        (eventHandlerFinalize true initialSt).refCount ∧
      (eventHandlerFinalize true (eventHandlerFinalize true initialSt)).destroyed =
        (eventHandlerFinalize true initialSt).destroyed ∧
      removeEvents (eventHandlerFinalize true (eventHandlerFinalize true initialSt)).trace =
        removeEvents (eventHandlerFinalize true initialSt).trace)) :=
  ⟨rfl, teardown_idempotent true initialSt initialSt rfl⟩

/-- C8: when teardown removes a bridge from any reachable state, the
bridge ends destroyed with count 0, removed from both the slot and the
registry; and in the trace of the teardown, the `removeCallback`
unregistration occurs strictly before the destructor runs (no `destroy`
event precedes it), i.e. the strong count reaches zero only after the
bridge has left both the slot and the event source's registry. -/
theorem teardown_unregisters_before_destroy (ops : List Op) (b : Nat)
    (h : (run ops).slot = some b) :
    (eventHandlerFinalize true (run ops)).slot = none ∧
    b ∉ (eventHandlerFinalize true (run ops)).registry ∧
    (eventHandlerFinalize true (run ops)).destroyed b = true ∧
    (eventHandlerFinalize true (run ops)).refCount b = 0 ∧
    (∃ l1 l2, (eventHandlerFinalize true (run ops)).trace =
        (run ops).trace ++ l1 ++ [Ev.removeCallback b] ++ l2 ∧
      Ev.destroy b ∉ l1 ∧ Ev.destroy b ∈ l2) := by
  have hinv := inv_run ops
  have hmem := hinv.slot_reg b h
  have hrc : (run ops).refCount b = 2 := by
    have hc := hinv.count b
    rw [h] at hc
    simp [hmem] at hc
    exact hc
  obtain ⟨h1, h2, h3, h4, h5, h6, h7, h8⟩ := finalize_some_spec (run ops) b h hrc
  refine ⟨h1, ?_, by rw [h5 b]; simp, by rw [h4 b]; simp, ?_⟩
  · rw [h2]
    intro hb
    exact ((hinv.nodup.mem_erase_iff).1 hb).1 rfl
  · refine ⟨[Ev.slotRead (some b), Ev.incStrong b, Ev.decStrong b, Ev.slotWrite none],
      [Ev.decStrong b, Ev.decStrong b, Ev.destroy b, Ev.deleteGlobalRefObject b,
       Ev.deleteGlobalRefClass b], ?_, by simp, by simp⟩
    rw [h8]
    simp

/-- Witness for C8: teardown after one successful setup. -/
theorem teardown_unregisters_before_destroy_witness :
    (run [Op.setup true 0 5 7]).slot = some 0 ∧
    ((eventHandlerFinalize true (run [Op.setup true 0 5 7])).slot = none ∧
     0 ∉ (eventHandlerFinalize true (run [Op.setup true 0 5 7])).registry ∧
     (eventHandlerFinalize true (run [Op.setup true 0 5 7])).destroyed 0 = true ∧
     (eventHandlerFinalize true (run [Op.setup true 0 5 7])).refCount 0 = 0 ∧
     (∃ l1 l2, (eventHandlerFinalize true (run [Op.setup true 0 5 7])).trace =
         (run [Op.setup true 0 5 7]).trace ++ l1 ++ [Ev.removeCallback 0] ++ l2 ∧
       Ev.destroy 0 ∉ l1 ∧ Ev.destroy 0 ∈ l2)) :=
  ⟨rfl, teardown_unregisters_before_destroy [Op.setup true 0 5 7] 0 rfl⟩

/-- C9: the bridge displaced by a second successful setup is never passed
to `removeAudioVolumeGroupCallback` (no `removeCallback` event at all in
the two-setup trace): only its slot reference is released (count 1 left,
still in the registry, not destroyed), and a later event delivery to it
still performs its dispatch up-call with its own stored proxy. -/
theorem superseded_bridge_keeps_receiving (cls1 P1 cls2 P2 : Nat) (g f : Int) :
    removeEvents (run [Op.setup true 0 cls1 P1, Op.setup true 0 cls2 P2]).trace = [] ∧
    0 ∈ (run [Op.setup true 0 cls1 P1, Op.setup true 0 cls2 P2]).registry ∧
    (run [Op.setup true 0 cls1 P1, Op.setup true 0 cls2 P2]).destroyed 0 = false ∧
    (run [Op.setup true 0 cls1 P1, Op.setup true 0 cls2 P2]).refCount 0 = 1 ∧
    (run [Op.setup true 0 cls1 P1, Op.setup true 0 cls2 P2]).slot = some 1 ∧
    (onAudioVolumeGroupChanged true false 0 g f
        (run [Op.setup true 0 cls1 P1, Op.setup true 0 cls2 P2])).trace =
      (run [Op.setup true 0 cls1 P1, Op.setup true 0 cls2 P2]).trace ++
        [Ev.postEvent (some cls1) (some P1) AUDIOVOLUMEGROUP_EVENT_VOLUME_CHANGED g f true] := by
  simp [run, step, eventHandlerSetup, newHandler, setJniCallback, incStrong, decStrong,
    destructor, onAudioVolumeGroupChanged, initialSt, removeEvents, NO_ERROR,
    Function.update_apply]

/-- C10: when the JNI environment for the current thread cannot be
obtained, `onAudioVolumeGroupChanged` returns at once with the state
completely unchanged (the event is silently dropped), and the destructor
returns without releasing the two global references (`mClass` and
`mObject` keep their values, no `DeleteGlobalRef` event is recorded);
both operations are total Lean functions on this input — nothing
dereferences the missing environment. -/
theorem null_env_total_and_leaks_globals (st : St) (ex : Bool) (b : Nat) (g f : Int) :
    onAudioVolumeGroupChanged false ex b g f st = st ∧
    (destructor false b st).mClass = st.mClass ∧
    (destructor false b st).mObject = st.mObject ∧
    (destructor false b st).slot = st.slot ∧
    (destructor false b st).registry = st.registry ∧
    (destructor false b st).refCount = st.refCount ∧
    (destructor false b st).trace = st.trace ++ [Ev.destroy b] ∧
    (destructor false b st).destroyed = Function.update st.destroyed b true := by
  refine ⟨rfl, ?_, ?_, ?_, ?_, ?_, ?_, ?_⟩ <;> simp [destructor]

end AudioVolumeChangeHandler
